import Mathlib

/- Verification development for the slcan_fd crate: a shallow embedding of the
   CAN frame model (frame.rs), the command encoder (command.rs), the received
   message parser (parser.rs) and the line-framing state machine of the socket
   read path (lib.rs).

   Bytes are modelled as natural numbers (all values produced are < 256; the
   only machine arithmetic that could overflow, the u16/u32 id accumulators,
   carries an explicit modulus).  A Rust panic (a failed assert or unwrap) is
   modelled as `none` of an outer `Option`; recoverable errors are the
   `Except.error` values inside. -/

deriving instance DecidableEq for Except

namespace SlcanFd

/-- The CAN message identifier of the embedded_can crate: a standard (11-bit)
or an extended (29-bit) identifier carrying its raw value. -/
inductive CanId
  | standard (raw : Nat)
  | extended (raw : Nat)
deriving DecidableEq

/-- A CAN 2.0 frame (frame.rs `Can2Frame`): the id, the dlc, and the optional
fixed 8-byte data buffer; `data = none` means a remote (RTR) frame. -/
structure Can2Frame where
  id : CanId
  dlc : Nat
  data : Option (List Nat)
deriving DecidableEq

/-- Models `Can2Frame::new_data`: rejects data longer than 8 bytes, otherwise
stores the bytes zero-padded to the fixed 8-byte buffer with `dlc` the given
length. -/
def Can2Frame.new_data (id : CanId) (data : List Nat) : Option Can2Frame :=
  if 8 < data.length then none
  else some { id := id, dlc := data.length,
              data := some (data ++ List.replicate (8 - data.length) 0) }

/-- Models `Can2Frame::new_remote`: rejects a dlc larger than 8. -/
def Can2Frame.new_remote (id : CanId) (dlc : Nat) : Option Can2Frame :=
  if 8 < dlc then none
  else some { id := id, dlc := dlc, data := none }

/-- Models the accessor `Can2Frame::data()`: the stored buffer truncated to
`dlc`, absent for a remote frame. -/
def Can2Frame.get_data (f : Can2Frame) : Option (List Nat) :=
  f.data.map (fun d => d.take f.dlc)

/-- Models `Can2Frame::is_remote()`. -/
def Can2Frame.isRemote (f : Can2Frame) : Bool :=
  f.data.isNone

/-- The sixteen CAN-FD data length codes (frame.rs `FdDataLengthCode`).  The
wire code of a variant (its Rust discriminant, 0..15) is distinct from the
byte count the variant denotes. -/
inductive FdDataLengthCode
  | Bytes0 | Bytes1 | Bytes2 | Bytes3 | Bytes4 | Bytes5 | Bytes6 | Bytes7
  | Bytes8 | Bytes12 | Bytes16 | Bytes20 | Bytes24 | Bytes32 | Bytes48 | Bytes64
deriving DecidableEq, Fintype

/-- Models `FdDataLengthCode::try_from` (num_enum TryFromPrimitive): looks a
variant up by its discriminant 0..15. -/
def FdDataLengthCode.fromCode : Nat → Option FdDataLengthCode
  | 0 => some .Bytes0
  | 1 => some .Bytes1
  | 2 => some .Bytes2
  | 3 => some .Bytes3
  | 4 => some .Bytes4
  | 5 => some .Bytes5
  | 6 => some .Bytes6
  | 7 => some .Bytes7
  | 8 => some .Bytes8
  | 9 => some .Bytes12
  | 10 => some .Bytes16
  | 11 => some .Bytes20
  | 12 => some .Bytes24
  | 13 => some .Bytes32
  | 14 => some .Bytes48
  | 15 => some .Bytes64
  | _ => none

/-- Models `FdDataLengthCode::get_num_bytes`. -/
def FdDataLengthCode.get_num_bytes : FdDataLengthCode → Nat
  | .Bytes0 => 0
  | .Bytes1 => 1
  | .Bytes2 => 2
  | .Bytes3 => 3
  | .Bytes4 => 4
  | .Bytes5 => 5
  | .Bytes6 => 6
  | .Bytes7 => 7
  | .Bytes8 => 8
  | .Bytes12 => 12
  | .Bytes16 => 16
  | .Bytes20 => 20
  | .Bytes24 => 24
  | .Bytes32 => 32
  | .Bytes48 => 48
  | .Bytes64 => 64

/-- Models `FdDataLengthCode::for_length`, the Rust range match written as the
equivalent ordered if-chain.  In the 0..=8 arm the Rust `try_into().unwrap()`
cannot fail (codes 0..8 exist), so `fromCode` is used directly. -/
def FdDataLengthCode.for_length (length : Nat) : Option FdDataLengthCode :=
  if length ≤ 8 then FdDataLengthCode.fromCode length
  else if length ≤ 12 then some .Bytes12
  else if length ≤ 16 then some .Bytes16
  else if length ≤ 20 then some .Bytes20
  else if length ≤ 24 then some .Bytes24
  else if length ≤ 32 then some .Bytes32
  else if length ≤ 48 then some .Bytes48
  else if length ≤ 64 then some .Bytes64
  else none

/-- A CAN-FD frame (frame.rs `CanFdFrame`): id, a data buffer of at most 64
bytes (the heapless vector holds exactly the pushed bytes), and the
bit-rate-switch flag. -/
structure CanFdFrame where
  id : CanId
  data : List Nat
  bit_rate_switched : Bool
deriving DecidableEq

/-- Models `CanFdFrame::new`: rejects data longer than 64 bytes or whose
length fails `FdDataLengthCode::try_from` (note: `try_from` is keyed on the
DLC discriminants 0..15, not on the legal byte counts). -/
def CanFdFrame.new (id : CanId) (data : List Nat) : Option CanFdFrame :=
  if 64 < data.length then none
  else if (FdDataLengthCode.fromCode data.length).isNone then none
  else some { id := id, data := data, bit_rate_switched := true }

/-- Models `CanFdFrame::new_padded`: zero-pads the data up to the byte count
of the next-larger-or-equal length code. -/
def CanFdFrame.new_padded (id : CanId) (data : List Nat) : Option CanFdFrame :=
  (FdDataLengthCode.for_length data.length).map (fun dlc =>
    { id := id,
      data := data ++ List.replicate (dlc.get_num_bytes - data.length) 0,
      bit_rate_switched := true })

/-- Models the accessor `CanFdFrame::dlc()`: `try_from(data.len()).unwrap()`;
the unwrap panic (length not a valid discriminant 0..15) is `none`. -/
def CanFdFrame.dlc (f : CanFdFrame) : Option FdDataLengthCode :=
  FdDataLengthCode.fromCode f.data.length

/-- Models `CanFdFrame::with_bit_rate_switched`. -/
def CanFdFrame.with_bit_rate_switched (f : CanFdFrame) (b : Bool) : CanFdFrame :=
  { f with bit_rate_switched := b }

/-- The joint frame type (frame.rs `CanFrame`). -/
inductive CanFrame
  | Can2 (f : Can2Frame)
  | CanFd (f : CanFdFrame)
deriving DecidableEq

/-- Wire byte of each `NominalBitRate` variant (command.rs). -/
inductive NominalBitRate
  | Rate10Kbit | Rate20Kbit | Rate50Kbit | Rate100Kbit | Rate125Kbit
  | Rate250Kbit | Rate500Kbit | Rate800Kbit | Rate1Mbit | Rate83_3Kbit
deriving DecidableEq

def NominalBitRate.toByte : NominalBitRate → Nat
  | .Rate10Kbit => 48
  | .Rate20Kbit => 49
  | .Rate50Kbit => 50
  | .Rate100Kbit => 51
  | .Rate125Kbit => 52
  | .Rate250Kbit => 53
  | .Rate500Kbit => 54
  | .Rate800Kbit => 55
  | .Rate1Mbit => 56
  | .Rate83_3Kbit => 57

/-- Wire byte of each `DataBitRate` variant (command.rs). -/
inductive DataBitRate
  | Rate2Mbit | Rate5Mbit
deriving DecidableEq

def DataBitRate.toByte : DataBitRate → Nat
  | .Rate2Mbit => 50
  | .Rate5Mbit => 53

/-- Wire byte of each `OperatingMode` variant (command.rs). -/
inductive OperatingMode
  | Normal | Silent
deriving DecidableEq

def OperatingMode.toByte : OperatingMode → Nat
  | .Normal => 48
  | .Silent => 49

/-- Wire byte of each `AutoRetransmissionMode` variant (command.rs). -/
inductive AutoRetransmissionMode
  | Disabled | Enabled
deriving DecidableEq

def AutoRetransmissionMode.toByte : AutoRetransmissionMode → Nat
  | .Disabled => 48
  | .Enabled => 49

/-- The commands sent to the gateway (command.rs `Command`). -/
inductive Command
  | SetNominalBitRate (rate : NominalBitRate)
  | SetDataBitRate (rate : DataBitRate)
  | SetMode (mode : OperatingMode)
  | SetAutoRetransmission (mode : AutoRetransmissionMode)
  | Open
  | Close
  | TransmitFrame (frame : CanFrame)

/-- Models `to_hex_digit` (command.rs): the lookup `HEX_LUT[value & 0xF]`
into the ASCII table of 0-9 and uppercase A-F. -/
def to_hex_digit (value : Nat) : Nat :=
  let n := value &&& 15
  if n < 10 then 48 + n else 55 + n

/-- Models `standard_id_to_hex`: three nibbles, most significant first. -/
def standard_id_to_hex (raw : Nat) : List Nat :=
  [to_hex_digit (raw >>> 8), to_hex_digit (raw >>> 4), to_hex_digit raw]

/-- Models `extended_id_to_hex`: eight nibbles, most significant first. -/
def extended_id_to_hex (raw : Nat) : List Nat :=
  [to_hex_digit (raw >>> 28), to_hex_digit (raw >>> 24),
   to_hex_digit (raw >>> 20), to_hex_digit (raw >>> 16),
   to_hex_digit (raw >>> 12), to_hex_digit (raw >>> 8),
   to_hex_digit (raw >>> 4), to_hex_digit raw]

/-- Models `bytes_to_hex`: two hex digits per byte, most significant nibble
first, in original byte order. -/
def bytes_to_hex (data : List Nat) : List Nat :=
  data.foldr (fun b acc => to_hex_digit (b >>> 4) :: to_hex_digit b :: acc) []

/-- Models `Command::as_bytes` (command.rs).  The ASCII command-kind bytes are
those of `CommandKind`: S=83 Y=89 M=77 A=65 O=79 C=67, t=116 T=84 r=114 R=82,
d=100 D=68 b=98 B=66.  The result is `none` when encoding panics, which
happens exactly when `CanFdFrame::dlc()` unwraps a failed `try_from` (an FD
frame whose byte length is not a valid discriminant 0..15). -/
def Command.as_bytes : Command → Option (List Nat)
  | .SetNominalBitRate rate => some [83, rate.toByte]
  | .SetDataBitRate rate => some [89, rate.toByte]
  | .SetMode mode => some [77, mode.toByte]
  | .SetAutoRetransmission mode => some [65, mode.toByte]
  | .Open => some [79]
  | .Close => some [67]
  | .TransmitFrame (.Can2 f) =>
      let head :=
        match f.id with
        | .standard raw =>
            (if f.isRemote then [114] else [116]) ++ standard_id_to_hex raw
        | .extended raw =>
            (if f.isRemote then [82] else [84]) ++ extended_id_to_hex raw
      let payload :=
        match f.get_data with
        | some d => bytes_to_hex d
        | none => []
      some (head ++ [to_hex_digit f.dlc] ++ payload)
  | .TransmitFrame (.CanFd f) =>
      let head :=
        match f.id with
        | .standard raw =>
            (if f.bit_rate_switched then [98] else [100]) ++ standard_id_to_hex raw
        | .extended raw =>
            (if f.bit_rate_switched then [66] else [68]) ++ extended_id_to_hex raw
      match f.dlc with
      | none => none
      | some c => some (head ++ [to_hex_digit c.get_num_bytes] ++ bytes_to_hex f.data)

/-- The eight receive-message tags of parser.rs `MessageKind`. -/
inductive MessageKind
  | ReceivedStandardDataFrame
  | ReceivedExtendedDataFrame
  | ReceivedStandardRemoteFrame
  | ReceivedExtendedRemoteFrame
  | ReceivedStandardFdFrameNoBrs
  | ReceivedExtendedFdFrameNoBrs
  | ReceivedStandardFdFrameWithBrs
  | ReceivedExtendedFdFrameWithBrs
deriving DecidableEq

/-- Models the num_enum `try_from` on `MessageKind`: tag bytes t=116 T=84
r=114 R=82 d=100 D=68 b=98 B=66. -/
def MessageKind.fromByte : Nat → Option MessageKind
  | 116 => some .ReceivedStandardDataFrame
  | 84 => some .ReceivedExtendedDataFrame
  | 114 => some .ReceivedStandardRemoteFrame
  | 82 => some .ReceivedExtendedRemoteFrame
  | 100 => some .ReceivedStandardFdFrameNoBrs
  | 68 => some .ReceivedExtendedFdFrameNoBrs
  | 98 => some .ReceivedStandardFdFrameWithBrs
  | 66 => some .ReceivedExtendedFdFrameWithBrs
  | _ => none

/-- Models `MessageKind::get_min_data_length`: id nibble count plus the one
DLC digit. -/
def MessageKind.get_min_data_length : MessageKind → Nat
  | .ReceivedStandardDataFrame => 3 + 1
  | .ReceivedExtendedDataFrame => 8 + 1
  | .ReceivedStandardRemoteFrame => 3 + 1
  | .ReceivedExtendedRemoteFrame => 8 + 1
  | .ReceivedStandardFdFrameNoBrs => 3 + 1
  | .ReceivedExtendedFdFrameNoBrs => 8 + 1
  | .ReceivedStandardFdFrameWithBrs => 3 + 1
  | .ReceivedExtendedFdFrameWithBrs => 8 + 1

/-- Models `MessageKind::get_max_data_length`: the minimum plus the maximum
payload hex character count (16 for CAN 2.0 data, 128 for FD, none for
remote). -/
def MessageKind.get_max_data_length : MessageKind → Nat
  | .ReceivedStandardDataFrame => 3 + 1 + 16
  | .ReceivedExtendedDataFrame => 8 + 1 + 16
  | .ReceivedStandardRemoteFrame => 3 + 1
  | .ReceivedExtendedRemoteFrame => 8 + 1
  | .ReceivedStandardFdFrameNoBrs => 3 + 1 + 128
  | .ReceivedExtendedFdFrameNoBrs => 8 + 1 + 128
  | .ReceivedStandardFdFrameWithBrs => 3 + 1 + 128
  | .ReceivedExtendedFdFrameWithBrs => 8 + 1 + 128

/-- The errors of parser.rs `MessageParseError`. -/
inductive MessageParseError
  | UnrecognizedMessage (b : Nat)
  | NotEnoughBytes (kind : MessageKind) (n : Nat)
  | TooManyBytes (kind : MessageKind) (n : Nat)
  | IllegalHexDigit (b : Nat)
  | IllegalDecimalDigit (b : Nat)
  | StandardIdOutOfRange (v : Nat)
  | ExtendedIdOutOfRange (v : Nat)
  | InvalidDataLength (n : Nat)
  | MismatchedDataLength (dlc : Nat) (n : Nat)
deriving DecidableEq

/-- Models `hex_digit_to_u8` (parser.rs).  The Rust match arms are the byte
ranges b'0'..=b'9' (48..57), b'a'..=b'f' (97..102) and the single-value range
b'A'..=b'A' (65 only). -/
def hex_digit_to_u8 (byte : Nat) : Except MessageParseError Nat :=
  if 48 ≤ byte ∧ byte ≤ 57 then Except.ok (byte - 48)
  else if 97 ≤ byte ∧ byte ≤ 102 then Except.ok (byte - 97 + 10)
  else if 65 ≤ byte ∧ byte ≤ 65 then Except.ok (byte - 65 + 10)
  else Except.error (MessageParseError.IllegalHexDigit byte)

/-- Models `dec_digit_to_u8` (parser.rs): the range b'0'..=b'9'. -/
def dec_digit_to_u8 (byte : Nat) : Except MessageParseError Nat :=
  if 48 ≤ byte ∧ byte ≤ 57 then Except.ok (byte - 48)
  else Except.error (MessageParseError.IllegalDecimalDigit byte)

/-- Models `u8_from_hex`: `(msn << 4) | lsn`. -/
def u8_from_hex (msb lsb : Nat) : Except MessageParseError Nat :=
  match hex_digit_to_u8 msb with
  | .error e => .error e
  | .ok msn =>
      match hex_digit_to_u8 lsb with
      | .error e => .error e
      | .ok lsn => .ok ((msn <<< 4) ||| lsn)

/-- Models `standard_id_from_hex`: fold the nibbles into a u16 accumulator
(`value <<= 4; value |= nibble`, with the u16 wrap made explicit), then the
`StandardId::new` range check against 0x7FF. -/
def standard_id_from_hex (hex_nibbles : List Nat) : Except MessageParseError Nat :=
  match hex_nibbles.foldlM
      (fun value nibble =>
        (hex_digit_to_u8 nibble).map (fun n => ((value <<< 4) % 65536) ||| n))
      0 with
  | .error e => .error e
  | .ok value =>
      if value ≤ 0x7FF then .ok value
      else .error (MessageParseError.StandardIdOutOfRange value)

/-- Models `extended_id_from_hex`: as for standard ids but with a u32
accumulator and the `ExtendedId::new` range check against 0x1FFFFFFF. -/
def extended_id_from_hex (hex_nibbles : List Nat) : Except MessageParseError Nat :=
  match hex_nibbles.foldlM
      (fun value nibble =>
        (hex_digit_to_u8 nibble).map (fun n => ((value <<< 4) % 4294967296) ||| n))
      0 with
  | .error e => .error e
  | .ok value =>
      if value ≤ 0x1FFFFFFF then .ok value
      else .error (MessageParseError.ExtendedIdOutOfRange value)

/-- Decodes the even-length hex character list two characters at a time, the
`hex_bytes.chunks(2)` loop of `unpack_data_bytes`.  A trailing single
character would make the Rust `chunk.try_into().unwrap()` panic (`none`);
the caller has already checked evenness so that arm is unreachable. -/
def decode_hex_pairs : List Nat → Option (Except MessageParseError (List Nat))
  | [] => some (.ok [])
  | [_] => none
  | msb :: lsb :: rest =>
      match u8_from_hex msb lsb with
      | .error e => some (.error e)
      | .ok x =>
          match decode_hex_pairs rest with
          | none => none
          | some (.error e) => some (.error e)
          | some (.ok xs) => some (.ok (x :: xs))

/-- Models `unpack_data_bytes` (parser.rs): oddness check (the length is cast
`as u8` in the error), then the length check `hex_bytes.len() != dlc` whose
error reports `hex_bytes.len() / 2`, then hex decoding into the fixed 64-byte
buffer.  Writing past the 64-byte buffer would be an index panic in Rust
(`none` here); the parser's maximum-length check keeps the pair count at most
64 so that branch is unreachable from `parse_frame_from_bytes`. -/
def unpack_data_bytes (hex_bytes : List Nat) (dlc : Nat) :
    Option (Except MessageParseError (List Nat)) :=
  if hex_bytes.length % 2 ≠ 0 then
    some (.error (MessageParseError.InvalidDataLength (hex_bytes.length % 256)))
  else if hex_bytes.length ≠ dlc then
    some (.error (MessageParseError.MismatchedDataLength dlc (hex_bytes.length / 2)))
  else
    match decode_hex_pairs hex_bytes with
    | none => none
    | some (.error e) => some (.error e)
    | some (.ok bytes) =>
        if 64 < bytes.length then none
        else some (.ok (bytes ++ List.replicate (64 - bytes.length) 0))

/-- The body of `parse_frame_from_bytes` after the length assert: tag
dispatch, the two length validations (whose errors report `buffer.len()`,
that is `message_data.length + 1`), and the per-kind field decoding. -/
def parse_message (b : Nat) (message_data : List Nat) :
    Option (Except MessageParseError CanFrame) :=
  match MessageKind.fromByte b with
    | none => some (.error (MessageParseError.UnrecognizedMessage b))
    | some kind =>
      if message_data.length < kind.get_min_data_length then
        some (.error (MessageParseError.NotEnoughBytes kind (message_data.length + 1)))
      else if kind.get_max_data_length < message_data.length then
        some (.error (MessageParseError.TooManyBytes kind (message_data.length + 1)))
      else
        match kind with
        | .ReceivedStandardDataFrame =>
            match standard_id_from_hex (message_data.take 3) with
            | .error e => some (.error e)
            | .ok id =>
              match dec_digit_to_u8 (message_data.getD 3 0) with
              | .error e => some (.error e)
              | .ok dlc =>
                match unpack_data_bytes (message_data.drop 4) dlc with
                | none => none
                | some (.error e) => some (.error e)
                | some (.ok data) =>
                  match Can2Frame.new_data (.standard id) (data.take dlc) with
                  | none => none
                  | some f => some (.ok (.Can2 f))
        | .ReceivedExtendedDataFrame =>
            match extended_id_from_hex (message_data.take 8) with
            | .error e => some (.error e)
            | .ok id =>
              match dec_digit_to_u8 (message_data.getD 8 0) with
              | .error e => some (.error e)
              | .ok dlc =>
                match unpack_data_bytes (message_data.drop 9) dlc with
                | none => none
                | some (.error e) => some (.error e)
                | some (.ok data) =>
                  match Can2Frame.new_data (.extended id) (data.take dlc) with
                  | none => none
                  | some f => some (.ok (.Can2 f))
        | .ReceivedStandardRemoteFrame =>
            match standard_id_from_hex (message_data.take 3) with
            | .error e => some (.error e)
            | .ok id =>
              match dec_digit_to_u8 (message_data.getD 3 0) with
              | .error e => some (.error e)
              | .ok dlc =>
                match Can2Frame.new_remote (.standard id) dlc with
                | none => none
                | some f => some (.ok (.Can2 f))
        | .ReceivedExtendedRemoteFrame =>
            match extended_id_from_hex (message_data.take 8) with
            | .error e => some (.error e)
            | .ok id =>
              match dec_digit_to_u8 (message_data.getD 8 0) with
              | .error e => some (.error e)
              | .ok dlc =>
                match Can2Frame.new_remote (.extended id) dlc with
                | none => none
                | some f => some (.ok (.Can2 f))
        | .ReceivedStandardFdFrameNoBrs =>
            match standard_id_from_hex (message_data.take 3) with
            | .error e => some (.error e)
            | .ok id =>
              match dec_digit_to_u8 (message_data.getD 3 0) with
              | .error e => some (.error e)
              | .ok dlc =>
                match unpack_data_bytes (message_data.drop 4) dlc with
                | none => none
                | some (.error e) => some (.error e)
                | some (.ok data) =>
                  match CanFdFrame.new (.standard id) (data.take dlc) with
                  | none => none
                  | some f => some (.ok (.CanFd (f.with_bit_rate_switched false)))
        | .ReceivedExtendedFdFrameNoBrs =>
            match extended_id_from_hex (message_data.take 8) with
            | .error e => some (.error e)
            | .ok id =>
              match dec_digit_to_u8 (message_data.getD 8 0) with
              | .error e => some (.error e)
              | .ok dlc =>
                match unpack_data_bytes (message_data.drop 9) dlc with
                | none => none
                | some (.error e) => some (.error e)
                | some (.ok data) =>
                  match CanFdFrame.new (.extended id) (data.take dlc) with
                  | none => none
                  | some f => some (.ok (.CanFd (f.with_bit_rate_switched false)))
        | .ReceivedStandardFdFrameWithBrs =>
            match standard_id_from_hex (message_data.take 3) with
            | .error e => some (.error e)
            | .ok id =>
              match dec_digit_to_u8 (message_data.getD 3 0) with
              | .error e => some (.error e)
              | .ok dlc =>
                match unpack_data_bytes (message_data.drop 4) dlc with
                | none => none
                | some (.error e) => some (.error e)
                | some (.ok data) =>
                  match CanFdFrame.new (.standard id) (data.take dlc) with
                  | none => none
                  | some f => some (.ok (.CanFd f))
        | .ReceivedExtendedFdFrameWithBrs =>
            match extended_id_from_hex (message_data.take 8) with
            | .error e => some (.error e)
            | .ok id =>
              match dec_digit_to_u8 (message_data.getD 8 0) with
              | .error e => some (.error e)
              | .ok dlc =>
                match unpack_data_bytes (message_data.drop 9) dlc with
                | none => none
                | some (.error e) => some (.error e)
                | some (.ok data) =>
                  match CanFdFrame.new (.extended id) (data.take dlc) with
                  | none => none
                  | some f => some (.ok (.CanFd f))

/-- Models `parse_frame_from_bytes` (parser.rs).  The result is `none` when
the Rust function panics: the `assert!(buffer.len() > 1)` (which also fires
for one-byte buffers), or one of the `.unwrap()` calls on the frame
constructors reached inside `parse_message`.  Recoverable parse failures are
`some (Except.error e)`. -/
def parse_frame_from_bytes (buffer : List Nat) :
    Option (Except MessageParseError CanFrame) :=
  match buffer with
  | [] => none
  | [_] => none
  | b :: c :: rest => parse_message b (c :: rest)

/-- The fixed receive buffer capacity of lib.rs:
`(1 + 8 + 1 + 128) + 1 + 16 = 155`. -/
def SLCAN_MTU : Nat := (1 + 8 + 1 + 128) + 1 + 16

/-- Socket state carried between read attempts (lib.rs `CanSocket`): the live
prefix `rx_buff[..rx_count]` of the fixed buffer (so `rx_buff.length` models
`rx_count`), and the error flag. -/
structure SocketState where
  rx_buff : List Nat
  error : Bool
deriving DecidableEq

/-- One byte of the line-framing loop shared by `sync::CanSocket::read_line`
and `tokio::CanSocket::read_line` (lib.rs): on CR (13) the state resets and
the accumulated line is produced only if the error flag was clear and at
least one byte was stored; otherwise the byte is skipped while in error,
triggers the error flag on overflow, or is appended. -/
def framer_step (s : SocketState) (b : Nat) : SocketState × Option (List Nat) :=
  if b = 13 then
    let valid := !s.error && decide (0 < s.rx_buff.length)
    ({ rx_buff := [], error := false }, if valid then some s.rx_buff else none)
  else if s.error then (s, none)
  else if SLCAN_MTU ≤ s.rx_buff.length then ({ s with error := true }, none)
  else ({ s with rx_buff := s.rx_buff ++ [b] }, none)

/-- One call of the blocking `read_line` over the bytes currently available:
consumes input one byte at a time, stopping at the first completed line.  The
result is the final socket state, the completed line if one was produced
(`none` models the would-block return after the input is exhausted), and the
input left unconsumed. -/
def read_line (s : SocketState) : List Nat → SocketState × Option (List Nat) × List Nat
  | [] => (s, none, [])
  | b :: rest =>
      match framer_step s b with
      | (s2, some line) => (s2, some line, rest)
      | (s2, none) => read_line s2 rest

/-- All lines the framer hands to the decoder over a whole input stream,
i.e. the lines produced by calling `read_line` repeatedly. -/
def framed_lines (s : SocketState) : List Nat → List (List Nat)
  | [] => []
  | b :: rest =>
      match framer_step s b with
      | (s2, some line) => line :: framed_lines s2 rest
      | (s2, none) => framed_lines s2 rest

/-- ASCII bytes of the line t1232DEAD, the actual encoding of the CAN 2.0
data frame with standard id 0x123 and payload DE AD. -/
def line_t1232DEAD : List Nat := [116, 49, 50, 51, 50, 68, 69, 65, 68]

/-- ASCII bytes of the line t12320DEAD quoted by the specification example. -/
def line_t12320DEAD : List Nat := [116, 49, 50, 51, 50, 48, 68, 69, 65, 68]

/-- ASCII bytes of the line t1234dead: DLC digit 4 with four (not eight)
payload hex characters, all lowercase. -/
def line_t1234dead : List Nat := [116, 49, 50, 51, 52, 100, 101, 97, 100]

/-- ASCII bytes of the line t123511223344: DLC digit 5 with eight payload hex
characters (four bytes). -/
def line_t1235_8chars : List Nat := [116, 49, 50, 51, 53, 49, 49, 50, 50, 51, 51, 52, 52]

/-- ASCII bytes of the line r0009: a standard remote frame with DLC digit 9. -/
def line_r0009 : List Nat := [114, 48, 48, 48, 57]

/-- ASCII bytes of the line d0009 followed by twenty-four payload hex
characters: under the spec, FD DLC code 9 denoting 12 payload bytes. -/
def line_d0009_24chars : List Nat :=
  [100, 48, 48, 48, 57] ++
  [49, 49, 50, 50, 51, 51, 52, 52, 53, 53, 54, 54,
   55, 55, 56, 56, 57, 57, 97, 97, 98, 98, 99, 99]

/-- ASCII bytes of garbage-without-CR, the first fed line of the framer
resynchronization example. -/
def garbage_line : List Nat :=
  [103, 97, 114, 98, 97, 103, 101, 45, 119, 105, 116, 104, 111, 117, 116, 45, 67, 82]

/-- ASCII bytes of the line t0001. -/
def line_t0001 : List Nat := [116, 48, 48, 48, 49]

/-- ASCII bytes of the line t000100. -/
def line_t000100 : List Nat := [116, 48, 48, 48, 49, 48, 48]

/-- The framer resynchronization example stream: garbage-without-CR, CR,
t0001, CR, a bare CR, t000100, CR. -/
def resync_stream : List Nat :=
  garbage_line ++ [13] ++ line_t0001 ++ [13] ++ [13] ++ line_t000100 ++ [13]

/-- The sixteen legal CAN-FD byte counts, in increasing order (from the
spec's length table). -/
def legal_fd_lengths : List Nat :=
  [0, 1, 2, 3, 4, 5, 6, 7, 8, 12, 16, 20, 24, 32, 48, 64]

/-- Every message kind's minimum field length is at most its maximum. -/
theorem min_data_length_le_max (k : MessageKind) :
    k.get_min_data_length ≤ k.get_max_data_length := by
  cases k <;> decide

/-- C1: the round-trip fails on the code.  Encoding the CAN 2.0 data frame
with standard id 0x123 and payload DE AD yields t1232DEAD, and parsing that
very encoding fails with MismatchedDataLength(2, 2), because
`unpack_data_bytes` compares the hex character count against the DLC instead
of twice the DLC; the claim requires Ok of an equal frame. -/
theorem roundtrip_fails_on_own_encoding :
    (Can2Frame.new_data (CanId.standard 0x123) [0xDE, 0xAD]).map (fun f =>
        Command.as_bytes (Command.TransmitFrame (CanFrame.Can2 f)))
      = some (some line_t1232DEAD)
    ∧ parse_frame_from_bytes line_t1232DEAD
      = some (.error (.MismatchedDataLength 2 2)) := by
  constructor
  · rfl
  · decide

/-- C2 counterexample: the encoder output for the example frame is the
nine-byte line t1232DEAD, not the spec's ten-byte string t12320DEAD, and
parsing t12320DEAD fails with InvalidDataLength(5) (the five payload hex
characters after the single DLC digit are odd in number) instead of
returning the claimed frame. -/
theorem encode_example_not_spec_string :
    (Can2Frame.new_data (CanId.standard 0x123) [0xDE, 0xAD]).map (fun f =>
        Command.as_bytes (Command.TransmitFrame (CanFrame.Can2 f)))
      = some (some line_t1232DEAD)
    ∧ line_t1232DEAD ≠ line_t12320DEAD
    ∧ parse_frame_from_bytes line_t12320DEAD
      = some (.error (.InvalidDataLength 5)) := by
  refine ⟨rfl, ?_, ?_⟩ <;> decide

/-- C2 amended: encoding Command::TransmitFrame of the CAN 2.0 data frame
with standard id 0x123 and payload DE AD yields exactly the ASCII bytes
t1232DEAD; parse_frame_from_bytes on the spec's string t12320DEAD returns
Err(InvalidDataLength(5)); and parse_frame_from_bytes on the actual encoding
t1232DEAD returns Err(MismatchedDataLength(2, 2)). -/
theorem encode_example_amended :
    (Can2Frame.new_data (CanId.standard 0x123) [0xDE, 0xAD]).map (fun f =>
        Command.as_bytes (Command.TransmitFrame (CanFrame.Can2 f)))
      = some (some [116, 49, 50, 51, 50, 68, 69, 65, 68])
    ∧ parse_frame_from_bytes line_t12320DEAD
      = some (.error (.InvalidDataLength 5))
    ∧ parse_frame_from_bytes line_t1232DEAD
      = some (.error (.MismatchedDataLength 2 2)) := by
  refine ⟨rfl, ?_, ?_⟩ <;> decide

/-- C3: the code compares the payload hex character count with the DLC
itself, not with twice the DLC.  The line t1234dead (DLC digit 4, four
payload hex characters, i.e. two bytes) is accepted and yields a dlc-4 frame
whose last two data bytes are zero-filled, where the claim requires
MismatchedDataLength(4, 2); the spec's own example (DLC digit 5 with eight
payload hex characters) does fail with MismatchedDataLength(5, 4), but only
because 8 differs from 5. -/
theorem payload_length_check_behavior :
    parse_frame_from_bytes line_t1234dead
      = some (.ok (.Can2 { id := .standard 0x123, dlc := 4,
                           data := some [0xDE, 0xAD, 0, 0, 0, 0, 0, 0] }))
    ∧ parse_frame_from_bytes line_t1235_8chars
      = some (.error (.MismatchedDataLength 5 4)) := by
  constructor <;> decide

/-- C4: the CAN-FD wire DLC digit is not the protocol code on either side.
Encoding an FD frame holding 12 data bytes emits the digit 8 (ASCII 56): the
buggy `dlc()` looks the byte count 12 up among the discriminants, finds
Bytes24, and the encoder then emits `get_num_bytes() & 0xF = 24 & 0xF`,
instead of the table code 9 (ASCII 57) the claim requires.  On receive, a
d-line with DLC digit 9 and 24 payload hex characters fails with
MismatchedDataLength(9, 12) because the parser treats the digit as a literal
byte count instead of mapping code 9 to 12 bytes.  Encoding an FD frame of
16 bytes (a legal FD length built by new_padded) panics outright. -/
theorem fd_dlc_digit_behavior :
    (CanFdFrame.new (CanId.standard 0) (List.replicate 12 0)).map (fun f =>
        Command.as_bytes (Command.TransmitFrame (CanFrame.CanFd f)))
      = some (some ([98, 48, 48, 48, 56] ++ List.replicate 24 48))
    ∧ (56 : Nat) ≠ 57
    ∧ parse_frame_from_bytes line_d0009_24chars
      = some (.error (.MismatchedDataLength 9 12))
    ∧ (CanFdFrame.new_padded (CanId.standard 0) (List.replicate 16 0)).map (fun f =>
        Command.as_bytes (Command.TransmitFrame (CanFrame.CanFd f)))
      = some none := by
  refine ⟨?_, ?_, ?_, ?_⟩ <;> decide

/-- C5: hex decoding is not case-insensitive over the full uppercase range.
The digits 0-9, lowercase a-f and uppercase A are accepted, but uppercase B
(and likewise C-F) fails with IllegalHexDigit even though the encoder's
`to_hex_digit 11` emits exactly that byte, so the decoder rejects digits the
uppercase-emitting encoder produces; the claim requires Ok(11) for B. -/
theorem hex_digit_uppercase_behavior :
    hex_digit_to_u8 48 = .ok 0
    ∧ hex_digit_to_u8 57 = .ok 9
    ∧ hex_digit_to_u8 97 = .ok 10
    ∧ hex_digit_to_u8 102 = .ok 15
    ∧ hex_digit_to_u8 65 = .ok 10
    ∧ hex_digit_to_u8 66 = .error (.IllegalHexDigit 66)
    ∧ hex_digit_to_u8 70 = .error (.IllegalHexDigit 70)
    ∧ to_hex_digit 11 = 66 := by
  repeat' constructor

/-- C6: parsing is not total on non-empty lines.  The one-byte line
consisting of the tag t alone trips the `assert!(buffer.len() > 1)` and
panics even though the input is non-empty, and the five-byte remote line
r0009 panics in `Can2Frame::new_remote(id, 9).unwrap()`; the claim allows a
panic only for zero-length input. -/
theorem parse_panics_on_nonempty_inputs :
    parse_frame_from_bytes [116] = none
    ∧ parse_frame_from_bytes line_r0009 = none := by
  constructor <;> decide

/-- C7: over the resynchronization example stream the framer hands exactly
the three non-empty lines garbage-without-CR, t0001 and t000100 to the
decoder (silently dropping only the empty line), but no fed line decodes
successfully: in particular the well-formed line t000100 fails with
MismatchedDataLength(1, 1) because the parser compares the two payload hex
characters against the DLC 1 instead of against 2*DLC, so the stream yields
zero decoded frames where the claim requires exactly one. -/
theorem framer_resync_example_decodes_nothing :
    framed_lines { rx_buff := [], error := false } resync_stream
      = [garbage_line, line_t0001, line_t000100]
    ∧ parse_frame_from_bytes line_t000100
      = some (.error (.MismatchedDataLength 1 1))
    ∧ ((framed_lines { rx_buff := [], error := false } resync_stream).filter
        (fun l => match parse_frame_from_bytes l with
          | some (Except.ok _) => true
          | _ => false)).length = 0 := by
  refine ⟨?_, ?_, ?_⟩ <;> decide

/-- C8: `for_length` is the ceiling map onto the sixteen legal CAN-FD byte
counts and is absent above 64; `get_num_bytes` is a bijection between the
sixteen codes and the legal length set; `for_length` is monotonic; and it is
idempotent on exact legal lengths. -/
theorem fdlc_for_length_spec :
    (∀ n : Nat, n ≤ 64 →
      ∃ c : FdDataLengthCode, FdDataLengthCode.for_length n = some c
        ∧ c.get_num_bytes ∈ legal_fd_lengths
        ∧ n ≤ c.get_num_bytes
        ∧ ∀ c' : FdDataLengthCode, n ≤ c'.get_num_bytes →
            c.get_num_bytes ≤ c'.get_num_bytes)
    ∧ (∀ n : Nat, 64 < n → FdDataLengthCode.for_length n = none)
    ∧ (∀ c : FdDataLengthCode, c.get_num_bytes ∈ legal_fd_lengths)
    ∧ (∀ m ∈ legal_fd_lengths, ∃ c : FdDataLengthCode, c.get_num_bytes = m)
    ∧ (∀ c c' : FdDataLengthCode, c.get_num_bytes = c'.get_num_bytes → c = c')
    ∧ (∀ m n : Nat, m ≤ n → n ≤ 64 →
        ∀ cm cn : FdDataLengthCode,
          FdDataLengthCode.for_length m = some cm →
          FdDataLengthCode.for_length n = some cn →
          cm.get_num_bytes ≤ cn.get_num_bytes)
    ∧ (∀ c : FdDataLengthCode,
        FdDataLengthCode.for_length c.get_num_bytes = some c) := by
  refine ⟨?_, ?_, ?_, ?_, ?_, ?_, ?_⟩
  · have hfin : ∀ i : Fin 65,
        ∃ c : FdDataLengthCode, FdDataLengthCode.for_length i.val = some c
          ∧ c.get_num_bytes ∈ legal_fd_lengths
          ∧ i.val ≤ c.get_num_bytes
          ∧ ∀ c' : FdDataLengthCode, i.val ≤ c'.get_num_bytes →
              c.get_num_bytes ≤ c'.get_num_bytes := by decide
    intro n hn
    exact hfin ⟨n, by omega⟩
  · intro n hn
    unfold FdDataLengthCode.for_length
    split_ifs <;> first | rfl | omega
  · decide
  · decide
  · decide
  · have hfin : ∀ i j : Fin 65, i.val ≤ j.val →
        ((FdDataLengthCode.for_length i.val).map
            FdDataLengthCode.get_num_bytes).getD 0
          ≤ ((FdDataLengthCode.for_length j.val).map
            FdDataLengthCode.get_num_bytes).getD 0 := by decide
    intro m n hmn hn cm cn hm hn2
    have h := hfin ⟨m, by omega⟩ ⟨n, by omega⟩ hmn
    simpa [hm, hn2] using h
  · decide

/-- C8 witness: instantiating the above-64 clause at 65. -/
theorem fdlc_for_length_spec_witness :
    FdDataLengthCode.for_length 65 = none :=
  fdlc_for_length_spec.2.1 65 (by decide)

/-- C9: when a blocking read_line call exhausts the available input without
completing a line (the would-block return), the final socket state is exactly
the fold of the framing step over every byte consumed, no input remains
unconsumed, and a retried call over further input behaves exactly as
continuing from that state, so no bytes are lost across retries. -/
theorem read_line_would_block_state (s : SocketState) (input : List Nat)
    (h : (read_line s input).2.1 = none) :
    (read_line s input).1
        = input.foldl (fun st b => (framer_step st b).1) s
    ∧ (read_line s input).2.2 = []
    ∧ ∀ more : List Nat,
        read_line s (input ++ more) = read_line ((read_line s input).1) more := by
  induction input generalizing s with
  | nil =>
      exact ⟨rfl, rfl, fun more => rfl⟩
  | cons b rest ih =>
      rcases hstep : framer_step s b with ⟨s2, out⟩
      cases out with
      | some line =>
          exfalso
          have hline : (read_line s (b :: rest)).2.1 = some line := by
            simp [read_line, hstep]
          rw [hline] at h
          exact Option.noConfusion h
      | none =>
          have hr : read_line s (b :: rest) = read_line s2 rest := by
            simp [read_line, hstep]
          have h2 : (read_line s2 rest).2.1 = none := by
            rw [hr] at h; exact h
          obtain ⟨h3, h4, h5⟩ := ih s2 h2
          refine ⟨?_, ?_, ?_⟩
          · rw [hr, h3]
            simp [List.foldl_cons, hstep]
          · rw [hr]; exact h4
          · intro more
            have happ : read_line s ((b :: rest) ++ more)
                = read_line s2 (rest ++ more) := by
              simp [read_line, hstep]
            rw [happ, h5 more, hr]

/-- C9 witness: a read of the single byte t would block with that byte folded
into the buffer. -/
theorem read_line_would_block_state_witness :
    (read_line { rx_buff := [], error := false } [116]).1
      = List.foldl (fun st b => (framer_step st b).1)
          { rx_buff := [], error := false } [116] :=
  (read_line_would_block_state { rx_buff := [], error := false } [116]
    (by decide)).1

/-- C10: when the kind-specific length validation fails, the reported length
is the full line length including the tag byte (`buffer.len()`), not the
field byte count that was compared against the bound. -/
theorem length_errors_report_full_line (b : Nat) (rest : List Nat)
    (kind : MessageKind) (hk : MessageKind.fromByte b = some kind)
    (hne : rest ≠ []) :
    (rest.length < kind.get_min_data_length →
        parse_frame_from_bytes (b :: rest)
          = some (.error (.NotEnoughBytes kind (b :: rest).length)))
    ∧ (kind.get_max_data_length < rest.length →
        parse_frame_from_bytes (b :: rest)
          = some (.error (.TooManyBytes kind (b :: rest).length))) := by
  match rest, hne with
  | r :: rs, _ =>
    constructor
    · intro h
      show parse_message b (r :: rs) = _
      rw [parse_message, hk]
      simp only [List.length_cons] at h ⊢
      rw [if_pos h]
    · intro h
      show parse_message b (r :: rs) = _
      rw [parse_message, hk]
      have hmin := min_data_length_le_max kind
      simp only [List.length_cons] at h ⊢
      rw [if_neg (by omega), if_pos h]

/-- C10 witness: the t-line with three field bytes reports NotEnoughBytes
with the full length 4. -/
theorem length_errors_report_full_line_witness :
    parse_frame_from_bytes [116, 49, 50, 51]
      = some (.error (.NotEnoughBytes MessageKind.ReceivedStandardDataFrame 4)) :=
  (length_errors_report_full_line 116 [49, 50, 51]
    MessageKind.ReceivedStandardDataFrame (by decide) (by decide)).1 (by decide)

end SlcanFd
